import Mathlib

/-!
Verification development for the kiosko-fiuba product-catalog backend.

The definitions below are a shallow embedding of the Python source:

* `src/products/infrastructure/repositories/postgresql/product_repository.py`
  (`PostgreSQLProductRepository`: `create`, `update`, `delete`, `list` and their
  private helpers),
* `src/products/infrastructure/repositories/postgresql/category_repository.py`
  (`PostgresCategoryRepository.get_by_id`),
* `src/api/routes/categories.py` (`get_category`),
* `src/products/application/dtos/product_dtos.py` (`ProductCreateDTO.set_slug`,
  `ProductFilterDTO`, `ProductUpdateDTO`),
* `src/products/application/dtos/slugify_helper.py` (`slugify`),
* `src/products/infrastructure/repositories/postgresql/models.py` (the ORM
  models, embedded as plain row records).

Conventions of the embedding:

* A relational database is a `Db`: one list of rows per table.  SQLAlchemy
  sessions disappear; every repository method becomes a pure function from a
  `Db` (and its arguments) to a result and/or an updated `Db`.
* UUIDs are opaque identifiers, embedded as `Nat`.
* `Numeric(10,2)` money columns are embedded as `Int` (an exact count of
  cents); only their ordering and equality matter to the verified claims.
* `DateTime` columns are embedded as `Int` timestamps.
* JSON blob columns (`attributes`, `shipping`, `warranty`, variant attribute
  maps, config option values) are embedded as opaque `String` payloads: the
  repository only stores and copies them.
* Python exceptions become `Except PyError`; an escaping exception models the
  request failing (and the surrounding transaction rolling back).
* Python dictionaries used as loosely-typed payload entries (image dicts,
  variant dicts, config dicts) are embedded as records of `Option` fields, one
  per key the code reads; a `none` field models an absent key, so `d["k"]` on
  an absent key can be embedded as a `KeyError`.
* Strings are processed character-wise (`String.data`) so that every
  definition evaluates by kernel reduction on concrete inputs.
-/

namespace Catalog

/-! ## Character and list helpers -/

/-- Lowercase an ASCII character (embedding of `str.lower` / `lowercase=True`
for the ASCII fragment the claims exercise). -/
def charLower (c : Char) : Char :=
  if 65 ≤ c.toNat && c.toNat ≤ 90 then Char.ofNat (c.toNat + 32) else c

/-- Lowercase a string into its character list. -/
def lowerStr (s : String) : List Char :=
  s.data.map charLower

/-- Contiguous-sublist test on character lists: the embedding of SQL
`LIKE '%pat%'` once both sides are lowercased. -/
def infixCheck : List Char → List Char → Bool
  | pat, [] => pat.isEmpty
  | pat, a :: l => pat.isPrefixOf (a :: l) || infixCheck pat l

/-- Case-insensitive containment: the embedding of
`column.ilike(f"%{term}%")`. -/
def ilike (term field : String) : Bool :=
  infixCheck (lowerStr term) (lowerStr field)

/-- Lexicographic order on character lists (the embedding of string
comparison inside SQL `ORDER BY`). -/
def charListLe : List Char → List Char → Bool
  | [], _ => true
  | _ :: _, [] => false
  | a :: as, b :: bs => if a == b then charListLe as bs else decide (a < b)

/-- Insert into a sorted list, keeping earlier elements first on ties. -/
def insertSorted (le : α → α → Bool) (a : α) : List α → List α
  | [] => [a]
  | b :: l => if le a b then a :: b :: l else b :: insertSorted le a l

/-- Deterministic stable sort used as the embedding of SQL `ORDER BY`. -/
def sortByLe (le : α → α → Bool) : List α → List α
  | [] => []
  | a :: l => insertSorted le a (sortByLe le l)

/-! ## Python-level error values -/

/-- Non-success outcomes of the embedded code paths.  The first three are
Python exceptions the code raises.  The last two are not exceptions but
model-level markers: `unmodeledOrder` for ordering by a relationship
attribute and `unmodeledAttr` for ordering by an underscore-prefixed name
outside the enumerated attribute lists — in both cases the embedding
refuses to assert what the program does, so no theorem may conclude either
success or a specific error there. -/
inductive PyError where
  | attributeError (attr : String)
  | keyError (key : String)
  | moduleNotFoundError (modName : String)
  | unmodeledOrder (attr : String)
  | unmodeledAttr (attr : String)
  deriving DecidableEq

/-! ## Rows of the relational schema (`models.py`) -/

/-- Row of the `products` table (`ProductModel`).  Every scalar column of the
model is present; JSON columns are opaque payloads. -/
structure ProductRow where
  id : Nat
  name : String
  slug : String
  description : String
  summary : Option String := none
  price_amount : Int
  price_currency : String := "USD"
  compare_at_price : Option Int := none
  brand_id : Option Nat := none
  model : Option String := none
  sku : String
  status : String := "active"
  stock : Int := 0
  is_available : Bool := true
  is_new : Bool := false
  is_refurbished : Bool := false
  condition : String := "new"
  has_variants : Bool := false
  tags : List String := []
  attributes : String := ""
  highlighted_features : List String := []
  warranty : Option String := none
  shipping : Option String := none
  created_at : Int := 0
  updated_at : Int := 0
  deriving DecidableEq

/-- Row of the `categories` table (`CategoryModel`). -/
structure CategoryRow where
  id : Nat
  name : String
  slug : String := ""
  description : Option String := none
  parent_id : Option Nat := none
  deriving DecidableEq

/-- Row of the `brands` table (`BrandModel`). -/
structure BrandRow where
  id : Nat
  name : String
  logo : Option String := none
  deriving DecidableEq

/-- Row of the `product_images` table (`ProductImageModel`).  The generated
primary key is not part of the embedding; rows are identified by content. -/
structure ImageRow where
  product_id : Nat
  variant_id : Option Nat := none
  url : String
  alt : Option String := none
  is_main : Bool := false
  order : Int := 0
  deriving DecidableEq

/-- Row of the `product_variants` table (`ProductVariantModel`). -/
structure VariantRow where
  parent_product_id : Nat
  name : String
  sku : String
  price_amount : Int
  price_currency : String
  compare_at_price : Option Int := none
  stock : Int := 0
  is_available : Bool := true
  is_selected : Bool := false
  attributes : String := ""
  deriving DecidableEq

/-- Row of the `config_options` table (`ConfigOptionModel`). -/
structure ConfigOptionRow where
  product_id : Nat
  name : String
  values : String
  deriving DecidableEq

/-- Row of the `product_reviews` table (`ProductReviewModel`), reduced to the
columns the verified claims touch. -/
structure ReviewRow where
  product_id : Nat
  payload : String := ""
  deriving DecidableEq

/-- The relational store: one list of rows per table, plus the
`product_categories` association table as a list of
`(product_id, category_id)` pairs. -/
structure Db where
  products : List ProductRow := []
  categories : List CategoryRow := []
  brands : List BrandRow := []
  product_categories : List (Nat × Nat) := []
  images : List ImageRow := []
  variants : List VariantRow := []
  config_options : List ConfigOptionRow := []
  reviews : List ReviewRow := []
  deriving DecidableEq

/-! ## Product listing (`ProductFilterDTO`, `list`, `_build_list_queries`) -/

/-- Embedding of `ProductFilterDTO` (product_dtos.py): every field optional,
with the Python defaults (`sort_order="asc"`, `limit=10`, `offset=0`). -/
structure ProductFilterDTO where
  category_id : Option Nat := none
  brand_id : Option Nat := none
  price_min : Option Int := none
  price_max : Option Int := none
  search : Option String := none
  tags : Option (List String) := none
  is_available : Option Bool := none
  is_new : Option Bool := none
  condition : Option String := none
  sort_by : Option String := none
  sort_order : Option String := some "asc"
  limit : Option Nat := some 10
  offset : Option Nat := some 0
  deriving DecidableEq

/-- Python truthiness of an optional string: `None` and `""` are falsy. -/
def optStrTruthy : Option String → Bool
  | none => false
  | some s => !(s == "")

/-- One SQLAlchemy filter clause, embedded syntactically so that theorems can
speak about which clauses a query contains. -/
inductive Cond where
  | categoryIn (category_id : Nat)
  | brandEq (brand_id : Nat)
  | priceGe (p : Int)
  | priceLe (p : Int)
  | searchOr (term : String)
  | tagContains (tag : String)
  | isAvailableEq (b : Bool)
  | isNewEq (b : Bool)
  | conditionEq (c : String)
  deriving DecidableEq

/-- Whether a clause is the category clause built from `filters.category_id`. -/
def Cond.isCategoryCond : Cond → Bool
  | .categoryIn _ => true
  | _ => false

/-- Truth of one clause at one `products` row, given the
`product_categories` association table (used by the `IN (subquery)` category
clause). -/
def evalCond (assoc : List (Nat × Nat)) (r : ProductRow) : Cond → Bool
  | .categoryIn cid => assoc.any (fun pc => pc.1 == r.id && pc.2 == cid)
  | .brandEq b => r.brand_id == some b
  | .priceGe p => decide (p ≤ r.price_amount)
  | .priceLe p => decide (r.price_amount ≤ p)
  | .searchOr t => ilike t r.name || ilike t r.description || ilike t r.sku
  | .tagContains t => r.tags.contains t
  | .isAvailableEq b => r.is_available == b
  | .isNewEq b => r.is_new == b
  | .conditionEq c => r.condition == c

/-- Embedding of `_build_basic_filters`: category, brand and price clauses.
`category_id` and `brand_id` are tested with Python truthiness (a UUID object
is always truthy, `None` is falsy); the price bounds with `is not None`. -/
def build_basic_filters (f : ProductFilterDTO) : List Cond :=
  (match f.category_id with
   | some cid => [Cond.categoryIn cid]
   | none => [])
  ++ (match f.brand_id with
      | some b => [Cond.brandEq b]
      | none => [])
  ++ (match f.price_min with
      | some p => [Cond.priceGe p]
      | none => [])
  ++ (match f.price_max with
      | some p => [Cond.priceLe p]
      | none => [])

/-- Embedding of `_build_search_filters`: one OR clause over name,
description and SKU. -/
def build_search_filters (term : String) : List Cond :=
  [Cond.searchOr term]

/-- Embedding of `_build_additional_filters`: tag containment clauses (one
per tag, conjoined), availability, newness and condition.  `tags` and
`condition` are tested with Python truthiness (`[]` and `""` are falsy); the
booleans with `is not None`. -/
def build_additional_filters (f : ProductFilterDTO) : List Cond :=
  (match f.tags with
   | some ts => ts.map Cond.tagContains
   | none => [])
  ++ (match f.is_available with
      | some b => [Cond.isAvailableEq b]
      | none => [])
  ++ (match f.is_new with
      | some b => [Cond.isNewEq b]
      | none => [])
  ++ (match f.condition with
      | some c => if c == "" then [] else [Cond.conditionEq c]
      | none => [])

/-- Embedding of `_build_filter_conditions`: basic, then search (only when
`filters.search` is truthy), then additional clauses. -/
def build_filter_conditions (f : ProductFilterDTO) : List Cond :=
  build_basic_filters f
  ++ (match f.search with
      | some s => if s == "" then [] else build_search_filters s
      | none => [])
  ++ build_additional_filters f

/-! ### Sorting (`_apply_sorting`) -/

/-- The column attributes of `ProductModel` (models.py lines 109-142): the
names for which `getattr(ProductModel, name)` is a sortable column. -/
def sortableColumns : List String :=
  ["id", "name", "slug", "description", "summary", "price_amount",
   "price_currency", "compare_at_price", "brand_id", "model", "sku", "status",
   "stock", "is_available", "is_new", "is_refurbished", "condition",
   "has_variants", "tags", "attributes", "highlighted_features", "warranty",
   "shipping", "created_at", "updated_at"]

/-- The relationship attributes of `ProductModel` (models.py lines 145-169):
`getattr` finds them, but they are not columns; ordering by one is outside
this model (SQLAlchemy internals decide whether it raises). -/
def relationshipAttrs : List String :=
  ["brand", "images", "variants", "reviews", "categories", "config_options",
   "promotions"]

/-- The non-underscore class-level attributes of `ProductModel` beyond the
columns and relationships, on which `getattr` succeeds but
`.asc()`/`.desc()` raises `AttributeError` at query-build time:
`__tablename__` (the plain string `"products"`, declared in models.py),
`metadata` (the `MetaData` instance declared on `Base` in
src/shared/database/base.py line 10), `registry` (inherited from
SQLAlchemy's `DeclarativeBase`), and `mro` (the one non-underscore
attribute every class inherits from `type`).  Together with the columns and
relationships these are ALL the attributes of the mapped class whose name
does not start with an underscore: the class body of models.py declares
only columns, relationships and `__tablename__`; `DeclarativeBase`
contributes `metadata` and `registry`; and every remaining inherited or
instrumented attribute (`__table__`, `__mapper__`, `__doc__`, `__init__`,
`_sa_class_manager`, every other dunder, ...) is underscore-prefixed. -/
def classLevelAttrs : List String :=
  ["__tablename__", "metadata", "registry", "mro"]

/-- Whether a name starts with an underscore.  For such names the model does
not decide attribute membership: the class has many underscore-prefixed
attributes (all dunders, SQLAlchemy internals) that cannot be exhaustively
enumerated, so ordering by an underscore-prefixed name that is not in
`classLevelAttrs` is left indeterminate rather than mapped to the silent
fallback. -/
def startsWithUnderscore (s : String) : Bool :=
  match s.data with
  | [] => false
  | c :: _ => c == '_'

/-- The resolved `ORDER BY` of the list query. -/
inductive SortSpec where
  | ordered (col : String) (desc : Bool)
  | attrErrorAt (attr : String)
  | relationshipOrder (attr : String) (desc : Bool)
  | indeterminateAttr (attr : String)
  deriving DecidableEq

/-- Whether the sort resolved to an actual column. -/
def SortSpec.isOrdered : SortSpec → Bool
  | .ordered _ _ => true
  | _ => false

/-- Embedding of `filters.sort_order and filters.sort_order.lower() == "desc"`. -/
def descRequested (f : ProductFilterDTO) : Bool :=
  match f.sort_order with
  | some s => lowerStr s == "desc".data
  | none => false

/-- Embedding of `_apply_sorting`.  When `filters.sort_by` is truthy, the
column is `getattr(ProductModel, filters.sort_by, ProductModel.created_at)`,
classified over the real attribute namespace of the mapped class:

* a column name is used as the sort column;
* a relationship name is found by `getattr` and its ordering is outside the
  model (`relationshipOrder`);
* one of the `classLevelAttrs` is found by `getattr` and raises
  `AttributeError` when `.asc()`/`.desc()` is called on it;
* any other underscore-prefixed name may or may not be an attribute (the
  underscore-prefixed attribute set is open-ended), so the outcome is left
  indeterminate rather than asserted;
* any other name — no leading underscore, not a column, relationship or
  class-level attribute — is certainly no attribute of the class, so
  `getattr` returns the `created_at` default and the query silently falls
  back (still honouring `sort_order`).

When `sort_by` is falsy the default is `created_at` descending. -/
def apply_sorting (f : ProductFilterDTO) : SortSpec :=
  match f.sort_by with
  | some s =>
      if s == "" then .ordered "created_at" true
      else if sortableColumns.contains s then .ordered s (descRequested f)
      else if relationshipAttrs.contains s then .relationshipOrder s (descRequested f)
      else if classLevelAttrs.contains s then .attrErrorAt s
      else if startsWithUnderscore s then .indeterminateAttr s
      else .ordered "created_at" (descRequested f)
  | none => .ordered "created_at" true

/-- Comparison key of one row under one sort column. -/
inductive SortKey where
  | natKey (n : Nat)
  | intKey (i : Int)
  | strKey (s : List Char)
  | boolKey (b : Bool)
  | optIntKey (o : Option Int)
  | optStrKey (o : Option (List Char))
  | jsonKey
  deriving DecidableEq

/-- Order on keys.  `none` sorts first among optional values; JSON payload
columns compare as equal (their database ordering is not load-bearing for
any claim).  Keys of distinct shapes never meet within one sort. -/
def sortKeyLe : SortKey → SortKey → Bool
  | .natKey a, .natKey b => decide (a ≤ b)
  | .intKey a, .intKey b => decide (a ≤ b)
  | .strKey a, .strKey b => charListLe a b
  | .boolKey a, .boolKey b => !a || b
  | .optIntKey none, .optIntKey _ => true
  | .optIntKey (some _), .optIntKey none => false
  | .optIntKey (some a), .optIntKey (some b) => decide (a ≤ b)
  | .optStrKey none, .optStrKey _ => true
  | .optStrKey (some _), .optStrKey none => false
  | .optStrKey (some a), .optStrKey (some b) => charListLe a b
  | _, _ => true

/-- The key of a `products` row under each sortable column. -/
def keyOfCol (col : String) (r : ProductRow) : SortKey :=
  if col == "id" then .natKey r.id
  else if col == "name" then .strKey r.name.data
  else if col == "slug" then .strKey r.slug.data
  else if col == "description" then .strKey r.description.data
  else if col == "summary" then .optStrKey (r.summary.map String.data)
  else if col == "price_amount" then .intKey r.price_amount
  else if col == "price_currency" then .strKey r.price_currency.data
  else if col == "compare_at_price" then .optIntKey r.compare_at_price
  else if col == "brand_id" then .optIntKey (r.brand_id.map Int.ofNat)
  else if col == "model" then .optStrKey (r.model.map String.data)
  else if col == "sku" then .strKey r.sku.data
  else if col == "status" then .strKey r.status.data
  else if col == "stock" then .intKey r.stock
  else if col == "is_available" then .boolKey r.is_available
  else if col == "is_new" then .boolKey r.is_new
  else if col == "is_refurbished" then .boolKey r.is_refurbished
  else if col == "condition" then .strKey r.condition.data
  else if col == "has_variants" then .boolKey r.has_variants
  else if col == "tags" then .jsonKey
  else if col == "attributes" then .jsonKey
  else if col == "highlighted_features" then .jsonKey
  else if col == "warranty" then .optStrKey (r.warranty.map String.data)
  else if col == "shipping" then .optStrKey (r.shipping.map String.data)
  else if col == "updated_at" then .intKey r.updated_at
  else .intKey r.created_at

/-- Execute the resolved `ORDER BY` on a row list. -/
def sortRows (col : String) (desc : Bool) (rows : List ProductRow) : List ProductRow :=
  if desc then
    sortByLe (fun a b => sortKeyLe (keyOfCol col b) (keyOfCol col a)) rows
  else
    sortByLe (fun a b => sortKeyLe (keyOfCol col a) (keyOfCol col b)) rows

/-! ### Queries (`_build_list_queries`, `list`) -/

/-- The row-fetching query: filter clauses, resolved ordering, and the
pagination that is applied to it (and only to it). -/
structure ListQuery where
  conditions : List Cond
  sort : SortSpec
  offset : Option Nat
  limit : Option Nat
  deriving DecidableEq

/-- The count query: `select(func.count())` with the same filter clauses and
no ordering or pagination. -/
structure CountQuery where
  conditions : List Cond
  deriving DecidableEq

/-- Embedding of `_build_list_queries`: one `conditions` list is built once
and attached to both queries; sorting and `offset`/`limit` only to the row
query. -/
def build_list_queries (f : ProductFilterDTO) : ListQuery × CountQuery :=
  let conditions := build_filter_conditions f
  (⟨conditions, apply_sorting f, f.offset, f.limit⟩, ⟨conditions⟩)

/-- Conjunction of all clauses at one row. -/
def matchesConditions (assoc : List (Nat × Nat)) (cs : List Cond) (r : ProductRow) : Bool :=
  cs.all (evalCond assoc r)

/-- Execute the count query. -/
def runCountQuery (db : Db) (q : CountQuery) : Nat :=
  (db.products.filter (matchesConditions db.product_categories q.conditions)).length

/-- Execute the row query: filter, sort, then `OFFSET`/`LIMIT` (Python
`None` means no offset / no limit).  A sort that did not resolve to a
column surfaces as the corresponding error at query-build time. -/
def runListQuery (db : Db) (q : ListQuery) : Except PyError (List ProductRow) :=
  match q.sort with
  | .ordered col desc =>
      let rows := db.products.filter (matchesConditions db.product_categories q.conditions)
      let sorted := sortRows col desc rows
      let afterOffset := match q.offset with
        | some o => sorted.drop o
        | none => sorted
      let page := match q.limit with
        | some l => afterOffset.take l
        | none => afterOffset
      .ok page
  | .attrErrorAt a => .error (.attributeError a)
  | .relationshipOrder a _ => .error (.unmodeledOrder a)
  | .indeterminateAttr a => .error (.unmodeledAttr a)

/-- Embedding of `PostgreSQLProductRepository.list`: build both queries,
execute them, return the page and the reported total.  An exception while
building or executing (the `AttributeError` of a bad sort attribute) escapes
before any result is produced. -/
def list_products (db : Db) (f : ProductFilterDTO) : Except PyError (List ProductRow × Nat) :=
  let qs := build_list_queries f
  match runListQuery db qs.1 with
  | .ok page => .ok (page, runCountQuery db qs.2)
  | .error e => .error e

/-- Modelled from the spec: the clause list of "the same query run with no
category filter at all" — `_build_filter_conditions` with the
`filters.category_id` branch removed altogether, every other clause built
exactly as in `build_filter_conditions`. -/
def build_filter_conditions_no_category (f : ProductFilterDTO) : List Cond :=
  ((match f.brand_id with
    | some b => [Cond.brandEq b]
    | none => [])
   ++ (match f.price_min with
       | some p => [Cond.priceGe p]
       | none => [])
   ++ (match f.price_max with
       | some p => [Cond.priceLe p]
       | none => []))
  ++ (match f.search with
      | some s => if s == "" then [] else build_search_filters s
      | none => [])
  ++ build_additional_filters f

/-- Modelled from the spec: the list operation run with no category filter
at all — the same pipeline as `list_products` but over
`build_filter_conditions_no_category`. -/
def list_products_no_category (db : Db) (f : ProductFilterDTO) : Except PyError (List ProductRow × Nat) :=
  let conditions := build_filter_conditions_no_category f
  let q : ListQuery := ⟨conditions, apply_sorting f, f.offset, f.limit⟩
  match runListQuery db q with
  | .ok page => .ok (page, runCountQuery db ⟨conditions⟩)
  | .error e => .error e

/-! ## Category route (`api/routes/categories.py`) -/

/-- A FastAPI `HTTPException`: status code plus detail message. -/
structure HTTPExc where
  status_code : Nat
  detail : String
  deriving DecidableEq

/-- Embedding of `str(e)` on a Starlette `HTTPException`:
`"{status_code}: {detail}"`. -/
def strOfHTTPExc (e : HTTPExc) : String :=
  toString e.status_code ++ ": " ++ e.detail

/-- The category response record built by `_convert_to_response`. -/
structure CategoryResponse where
  id : Nat
  name : String
  description : Option String
  parent_id : Option Nat
  deriving DecidableEq

/-- Embedding of `PostgresCategoryRepository.get_by_id`: first row of
`categories` with the given id, or `None`. -/
def category_get_by_id (cats : List CategoryRow) (category_id : Nat) : Option CategoryRow :=
  cats.find? (fun c => c.id == category_id)

/-- Embedding of the `get_category` route handler.  The whole handler body is
one `try` block; the `HTTPException(404, ...)` raised inside it for a missing
category is itself an `Exception`, so the handler's own
`except Exception as e: raise HTTPException(500, str(e))` catches it and
re-raises it as a 500. -/
def get_category (cats : List CategoryRow) (category_id : Nat) : Except HTTPExc CategoryResponse :=
  let body : Except HTTPExc CategoryResponse :=
    match category_get_by_id cats category_id with
    | none =>
        .error ⟨404, "Category " ++ toString category_id ++ " not found"⟩
    | some c => .ok ⟨c.id, c.name, c.description, c.parent_id⟩
  match body with
  | .ok r => .ok r
  | .error e => .error ⟨500, strOfHTTPExc e⟩

/-! ## Slug generation (`slugify_helper.py`, `ProductCreateDTO.set_slug`) -/

/-- Embedding of the camel-case preprocessing
`re.sub(r"([a-z0-9])([A-Z])", r"\x7b1 \x7d2", text)` of `slugify_helper.slugify`:
a space is inserted between an ASCII lowercase letter or digit and an ASCII
uppercase letter. -/
def camelSplitList : List Char → List Char
  | a :: b :: rest =>
      if (a.isLower || a.isDigit) && b.isUpper then
        a :: ' ' :: camelSplitList (b :: rest)
      else
        a :: camelSplitList (b :: rest)
  | l => l

/-- Map each character to its slug form: alphanumeric characters are
lowercased, everything else becomes the separator. -/
def slugChar (c : Char) : Char :=
  if c.isAlphanum then charLower c else '-'

/-- Collapse each run of consecutive separators to a single one. -/
def collapseDashes : List Char → List Char
  | [] => []
  | [c] => [c]
  | c :: d :: rest =>
      if c == '-' && d == '-' then collapseDashes (d :: rest)
      else c :: collapseDashes (d :: rest)

/-- Strip leading and trailing separators. -/
def trimDashes (l : List Char) : List Char :=
  ((l.dropWhile (fun c => c == '-')).reverse.dropWhile (fun c => c == '-')).reverse

/-- Modelled from the spec: the third-party `slugify` function of the
python-slugify distribution (an external library, not part of src/), as the
spec describes slug derivation — lowercasing, replacing each run of
non-alphanumeric characters with a single separator, and trimming leading
and trailing separators.  Diacritic stripping is outside the ASCII fragment
this model covers. -/
def base_slugify (text : String) : String :=
  String.mk (trimDashes (collapseDashes (text.data.map slugChar)))

/-- Embedding of `slugify_helper.slugify`: camel-case splitting followed by
the base slugify with `separator="-"` and `lowercase=True`. -/
def slugify (text : String) : String :=
  base_slugify (String.mk (camelSplitList text.data))

/-- Modelled from the spec and the repository's own imports: importing name
`slugify` from a module.  The installed python-slugify distribution provides
the module named `slugify` (used as such by `slugify_helper.py` and both
slug migrations); no module named `python_slugify` exists, so importing from
it raises `ModuleNotFoundError`. -/
def importSlugifyFrom (modName : String) : Except PyError (String → String) :=
  if modName == "slugify" then .ok base_slugify
  else .error (.moduleNotFoundError modName)

/-- Embedding of `ProductCreateDTO.set_slug`: when the supplied slug is falsy
(`None` or `""`) and a name is available, it runs
`from python_slugify import slugify` and applies it to the name; otherwise it
returns the supplied slug (or `""` for `None`). -/
def set_slug (v : Option String) (name : String) : Except PyError String :=
  match v with
  | none => (importSlugifyFrom "python_slugify").map (fun f => f name)
  | some s =>
      if s == "" then (importSlugifyFrom "python_slugify").map (fun f => f name)
      else .ok s

/-! ## Payload dictionaries -/

/-- A loosely-typed image payload dictionary.  One `Option` field per key the
repository reads; `isMainKey` embeds the `"isMain"` entry read by `create`
and `is_mainKey` the `"is_main"` entry read by `update`. -/
structure ImageDict where
  url : Option String := none
  alt : Option String := none
  isMainKey : Option Bool := none
  is_mainKey : Option Bool := none
  orderKey : Option Int := none
  deriving DecidableEq

/-- A loosely-typed variant payload dictionary (`_update_variants`):
`"name"`, `"sku"` and `"price"` are read with `[...]` (required), the rest
with `.get` and a default. -/
structure VariantDict where
  name : Option String := none
  sku : Option String := none
  price : Option Int := none
  compare_at_price : Option Int := none
  stock : Option Int := none
  is_available : Option Bool := none
  is_selected : Option Bool := none
  attributes : Option String := none
  deriving DecidableEq

/-- A loosely-typed config-option payload dictionary
(`_update_config_options`): both keys are read with `[...]` (required). -/
structure ConfigDict where
  name : Option String := none
  values : Option String := none
  deriving DecidableEq

/-! ## Product creation (`PostgreSQLProductRepository.create`) -/

/-- Embedding of `ProductCreateDTO` as the repository receives it (after
pydantic validation, so `slug` is already a string).  `variants` is carried
as opaque payloads: `create` only reads its truthiness for `has_variants`
(`_add_variants` is never called from `create`). -/
structure ProductCreateDTO where
  name : String
  slug : String := ""
  description : String := ""
  summary : Option String := none
  price : Int
  compare_at_price : Option Int := none
  currency : String := "ARS"
  brand_id : Option Nat := none
  model : Option String := none
  sku : String
  stock : Int := 0
  is_available : Bool := true
  is_new : Bool := false
  is_refurbished : Bool := false
  condition : String := "new"
  category_ids : List Nat := []
  tags : List String := []
  images : List ImageDict := []
  attributes : String := ""
  has_variants : Bool := false
  variants : Option (List String) := none
  highlighted_features : List String := []
  shipping : Option String := none
  warranty : Option String := none
  deriving DecidableEq

/-- Category summary embedded in the created aggregate. -/
structure CategoryInfo where
  id : Nat
  name : String
  slug : String
  parentId : Option Nat
  deriving DecidableEq

/-- Image summary embedded in the created aggregate. -/
structure ImageInfo where
  url : String
  alt : Option String
  isMain : Bool
  deriving DecidableEq

/-- Brand summary embedded in the created aggregate. -/
structure BrandInfo where
  id : Nat
  name : String
  logo : Option String
  deriving DecidableEq

/-- The product aggregate returned by `create`, reduced to the fields the
verified claims touch. -/
structure ProductAggregate where
  id : Nat
  name : String
  slug : String
  price : Int
  sku : String
  stock : Int
  categories : List CategoryInfo
  images : List ImageInfo
  brand : Option BrandInfo
  deriving DecidableEq

/-- Embedding of `_add_categories`: first restrict the payload ids to those
that exist in `categories`, then insert one association row per surviving
id.  The SQL `IN` lookup returns the surviving ids in store order; the
embedding keeps payload order, which the claims never distinguish. -/
def add_categories (db : Db) (product_id : Nat) (category_ids : List Nat) : Db :=
  let found := category_ids.filter (fun c => db.categories.any (fun cat => cat.id == c))
  { db with product_categories :=
      db.product_categories ++ found.map (fun c => (product_id, c)) }

/-- Construct one `ProductImageModel` from a payload dictionary inside
`_add_images`: `image_data["url"]` raises `KeyError` when absent; the other
keys are read with `.get` and a default. -/
def buildCreateImage (product_id : Nat) (d : ImageDict) : Except PyError ImageRow :=
  match d.url with
  | none => .error (.keyError "url")
  | some u =>
      .ok { product_id := product_id, variant_id := none, url := u, alt := d.alt,
            is_main := d.isMainKey.getD false, order := d.orderKey.getD 0 }

/-- Embedding of `_add_images`: each image whose construction raises is
caught, logged and skipped, and the loop continues with the next image. -/
def add_images (db : Db) (product_id : Nat) (images_data : List ImageDict) : Db :=
  { db with images :=
      db.images ++ images_data.filterMap (fun d => (buildCreateImage product_id d).toOption) }

/-- The `ProductModel` row that `create` constructs from the DTO (lines
56-78 of the repository); `has_variants` is `bool(product_dto.variants)`. -/
def create_row (newId : Nat) (now : Int) (dto : ProductCreateDTO) : ProductRow :=
  { id := newId, name := dto.name, slug := dto.slug,
    description := dto.description, summary := dto.summary,
    price_amount := dto.price, price_currency := dto.currency,
    compare_at_price := dto.compare_at_price, brand_id := dto.brand_id,
    model := dto.model, sku := dto.sku, stock := dto.stock,
    is_available := dto.is_available, is_new := dto.is_new,
    is_refurbished := dto.is_refurbished, condition := dto.condition,
    has_variants := !(dto.variants.getD []).isEmpty,
    tags := dto.tags, attributes := dto.attributes,
    highlighted_features := dto.highlighted_features,
    shipping := dto.shipping, warranty := dto.warranty,
    created_at := now, updated_at := now }

/-- The `if product_dto.category_ids:` guard around `_add_categories` in
`create` (an empty list is falsy). -/
def create_categories_stage (db1 : Db) (newId : Nat) (category_ids : List Nat) : Db :=
  if !category_ids.isEmpty then add_categories db1 newId category_ids else db1

/-- The per-id category lookup `create` uses to echo category data into the
aggregate: missing ids produce no entry (`if category:`). -/
def create_categories_data (db1 : Db) (category_ids : List Nat) : List CategoryInfo :=
  if !category_ids.isEmpty then
    category_ids.filterMap (fun cid =>
      (db1.categories.find? (fun cat => cat.id == cid)).map (fun cat =>
        ⟨cat.id, cat.name, cat.slug, cat.parent_id⟩))
  else []

/-- The `if product_dto.images:` guard around `_add_images` in `create`. -/
def create_images_stage (db2 : Db) (newId : Nat) (images : List ImageDict) : Db :=
  if !images.isEmpty then add_images db2 newId images else db2

/-- The second image loop of `create` that rebuilds the aggregate's image
list directly from the payload: it reads `img["url"]` outside any `try`, so
a missing `"url"` key raises `KeyError` here. -/
def create_images_echo (images : List ImageDict) : Except PyError (List ImageInfo) :=
  if !images.isEmpty then
    images.mapM (fun d =>
      match d.url with
      | none => .error (.keyError "url")
      | some u => .ok ⟨u, d.alt, d.isMainKey.getD false⟩)
  else .ok []

/-- The brand echo of `create` (`if product_dto.brand_id:` then a lookup,
dropped silently when the brand does not exist). -/
def create_brand_data (db : Db) (brand_id : Option Nat) : Option BrandInfo :=
  match brand_id with
  | some b => (db.brands.find? (fun br => br.id == b)).map (fun br => ⟨br.id, br.name, br.logo⟩)
  | none => none

/-- Embedding of `PostgreSQLProductRepository.create`.  The row is inserted;
categories are added via `add_categories` and echoed into the aggregate from
a per-id lookup that silently drops missing ids; images are staged via
`add_images` (which skips failures) and then echoed into the aggregate by a
second loop that reads `img["url"]` outside any `try`, so a missing `"url"`
key raises `KeyError` there and the whole create fails (the transaction
rolls back, modelled by returning the error and no store). -/
def create_product (db : Db) (newId : Nat) (now : Int) (dto : ProductCreateDTO) :
    Except PyError (ProductAggregate × Db) :=
  let db1 := { db with products := db.products ++ [create_row newId now dto] }
  let db2 := create_categories_stage db1 newId dto.category_ids
  let db3 := create_images_stage db2 newId dto.images
  match create_images_echo dto.images with
  | .error e => .error e
  | .ok images_data =>
      .ok (⟨newId, dto.name, dto.slug, dto.price, dto.sku, dto.stock,
            create_categories_data db1 dto.category_ids, images_data,
            create_brand_data db dto.brand_id⟩, db3)

/-! ## Product update (`PostgreSQLProductRepository.update`) -/

/-- Embedding of `ProductUpdateDTO`: every field optional, `None` meaning
"leave unchanged" for scalars and "untouched" for sub-collections. -/
structure ProductUpdateDTO where
  name : Option String := none
  slug : Option String := none
  description : Option String := none
  summary : Option String := none
  price : Option Int := none
  compare_at_price : Option Int := none
  currency : Option String := none
  brand_id : Option Nat := none
  model : Option String := none
  sku : Option String := none
  stock : Option Int := none
  is_available : Option Bool := none
  is_new : Option Bool := none
  is_refurbished : Option Bool := none
  condition : Option String := none
  has_variants : Option Bool := none
  tags : Option (List String) := none
  attributes : Option String := none
  highlighted_features : Option (List String) := none
  shipping : Option String := none
  warranty : Option String := none
  category_ids : Option (List Nat) := none
  images : Option (List ImageDict) := none
  variants : Option (List VariantDict) := none
  config_options : Option (List ConfigDict) := none
  deriving DecidableEq

/-- Embedding of `_update_basic_fields` (all five scalar helpers) plus the
final `updated_at = datetime.utcnow()`: each field set in the DTO replaces
the stored value, each `None` field leaves it unchanged. -/
def merge_scalars (p : ProductRow) (dto : ProductUpdateDTO) (now : Int) : ProductRow :=
  { p with
    name := dto.name.getD p.name,
    slug := dto.slug.getD p.slug,
    description := dto.description.getD p.description,
    summary := match dto.summary with
      | some s => some s
      | none => p.summary,
    price_amount := dto.price.getD p.price_amount,
    compare_at_price := match dto.compare_at_price with
      | some v => some v
      | none => p.compare_at_price,
    price_currency := dto.currency.getD p.price_currency,
    brand_id := match dto.brand_id with
      | some b => some b
      | none => p.brand_id,
    model := match dto.model with
      | some m => some m
      | none => p.model,
    sku := dto.sku.getD p.sku,
    stock := dto.stock.getD p.stock,
    is_available := dto.is_available.getD p.is_available,
    is_new := dto.is_new.getD p.is_new,
    is_refurbished := dto.is_refurbished.getD p.is_refurbished,
    condition := dto.condition.getD p.condition,
    has_variants := dto.has_variants.getD p.has_variants,
    tags := dto.tags.getD p.tags,
    attributes := dto.attributes.getD p.attributes,
    highlighted_features := dto.highlighted_features.getD p.highlighted_features,
    shipping := match dto.shipping with
      | some s => some s
      | none => p.shipping,
    warranty := match dto.warranty with
      | some w => some w
      | none => p.warranty,
    updated_at := now }

/-- Embedding of `_update_categories`: when `category_ids` is present, the
existing associations of the product are cleared and replaced by one
association per payload id that exists in `categories`; when absent, the
association table is untouched. -/
def update_categories_table (db : Db) (product_id : Nat) (o : Option (List Nat)) : Db :=
  match o with
  | none => db
  | some cids =>
      let existing := cids.filter (fun c => db.categories.any (fun cat => cat.id == c))
      { db with product_categories :=
          db.product_categories.filter (fun pc => !(pc.1 == product_id))
            ++ existing.map (fun c => (product_id, c)) }

/-- Construct one replacement image row inside `_update_images`:
`image_data["url"]` is required, `"is_main"` (note: not `"isMain"`) and
`"order"` are read with `.get` and a default. -/
def buildUpdateImage (product_id : Nat) (d : ImageDict) : Except PyError ImageRow :=
  match d.url with
  | none => .error (.keyError "url")
  | some u =>
      .ok { product_id := product_id, variant_id := none, url := u, alt := d.alt,
            is_main := d.is_mainKey.getD false, order := d.orderKey.getD 0 }

/-- Embedding of `_update_images`: when `images` is present, every stored
image row of the product (matched on `product_id` alone, so variant-linked
images included) is deleted and one row per payload entry is added; when
absent, the images table is untouched.  A missing `"url"` key raises and
fails the whole update. -/
def update_images_table (db : Db) (product_id : Nat) (o : Option (List ImageDict)) :
    Except PyError Db :=
  match o with
  | none => .ok db
  | some imgs =>
      (imgs.mapM (buildUpdateImage product_id)).map (fun rows =>
        { db with images :=
            db.images.filter (fun i => !(i.product_id == product_id)) ++ rows })

/-- Construct one replacement variant row inside `_update_variants`:
`"name"`, `"sku"` and `"price"` are required, the currency is copied from
the (already merged) product row, the rest is read with `.get` and a
default. -/
def buildUpdateVariant (product_id : Nat) (currency : String) (d : VariantDict) :
    Except PyError VariantRow :=
  match d.name with
  | none => .error (.keyError "name")
  | some nm =>
      match d.sku with
      | none => .error (.keyError "sku")
      | some sk =>
          match d.price with
          | none => .error (.keyError "price")
          | some pr =>
              .ok { parent_product_id := product_id, name := nm, sku := sk,
                    price_amount := pr, price_currency := currency,
                    compare_at_price := d.compare_at_price,
                    stock := d.stock.getD 0,
                    is_available := d.is_available.getD true,
                    is_selected := d.is_selected.getD false,
                    attributes := d.attributes.getD "" }

/-- Embedding of `_update_variants`: when `variants` is present, every stored
variant row of the product is deleted and one row per payload entry is
added; when absent, the variants table is untouched.  (The knock-on effect
of the variant deletion on image rows whose `variant_id` referenced a
deleted variant — SQLAlchemy nulling the foreign key versus the database
cascading — is not modelled; no verified claim depends on it.) -/
def update_variants_table (db : Db) (product_id : Nat) (currency : String)
    (o : Option (List VariantDict)) : Except PyError Db :=
  match o with
  | none => .ok db
  | some vars =>
      (vars.mapM (buildUpdateVariant product_id currency)).map (fun rows =>
        { db with variants :=
            db.variants.filter (fun v => !(v.parent_product_id == product_id)) ++ rows })

/-- Construct one replacement config-option row inside
`_update_config_options`: both keys are required. -/
def buildUpdateConfig (product_id : Nat) (d : ConfigDict) : Except PyError ConfigOptionRow :=
  match d.name with
  | none => .error (.keyError "name")
  | some nm =>
      match d.values with
      | none => .error (.keyError "values")
      | some vs => .ok { product_id := product_id, name := nm, values := vs }

/-- Embedding of `_update_config_options`: whole-collection replacement when
present, untouched when absent. -/
def update_config_table (db : Db) (product_id : Nat) (o : Option (List ConfigDict)) :
    Except PyError Db :=
  match o with
  | none => .ok db
  | some cfgs =>
      (cfgs.mapM (buildUpdateConfig product_id)).map (fun rows =>
        { db with config_options :=
            db.config_options.filter (fun c => !(c.product_id == product_id)) ++ rows })

/-- Writing the merged scalar row back onto the loaded product model. -/
def update_scalars_stage (db : Db) (product_id : Nat) (p2 : ProductRow) : Db :=
  { db with products := db.products.map (fun q => if q.id == product_id then p2 else q) }

/-- Embedding of `PostgreSQLProductRepository.update`: `None` when the
product id does not exist; otherwise the scalar merge followed by the four
sub-collection stages in source order (categories, images, variants, config
options).  An exception in any stage fails the whole update. -/
def update_product (db : Db) (product_id : Nat) (dto : ProductUpdateDTO) (now : Int) :
    Except PyError (Option Db) :=
  match db.products.find? (fun p => p.id == product_id) with
  | none => .ok none
  | some p =>
      match update_images_table
          (update_categories_table
            (update_scalars_stage db product_id (merge_scalars p dto now))
            product_id dto.category_ids)
          product_id dto.images with
      | .error e => .error e
      | .ok db3 =>
          match update_variants_table db3 product_id
              (merge_scalars p dto now).price_currency dto.variants with
          | .error e => .error e
          | .ok db4 =>
              match update_config_table db4 product_id dto.config_options with
              | .error e => .error e
              | .ok db5 => .ok (some db5)

/-! ## Product deletion (`PostgreSQLProductRepository.delete`) -/

/-- Embedding of `PostgreSQLProductRepository.delete`: look the row up; when
absent return `False` with the store untouched; when present delete it and
return `True`.  The deletion cascades to the owned sub-rows: images,
variants, reviews and config options carry `cascade="all, delete-orphan"`
on the ORM relationships (and `ondelete="CASCADE"` foreign keys), and the
`product_categories` association rows are removed with the product side of
the many-to-many. -/
def delete_product (db : Db) (product_id : Nat) : Db × Bool :=
  match db.products.find? (fun p => p.id == product_id) with
  | none => (db, false)
  | some _ =>
      ({ db with
         products := db.products.filter (fun p => !(p.id == product_id)),
         images := db.images.filter (fun i => !(i.product_id == product_id)),
         variants := db.variants.filter (fun v => !(v.parent_product_id == product_id)),
         config_options := db.config_options.filter (fun c => !(c.product_id == product_id)),
         reviews := db.reviews.filter (fun r => !(r.product_id == product_id)),
         product_categories := db.product_categories.filter (fun pc => !(pc.1 == product_id)) },
       true)

/-! ## Concrete fixtures used by witnesses and counterexamples -/

/-- A category on file. -/
def exCategory : CategoryRow :=
  { id := 5, name := "Phones", slug := "phones" }

/-- A brand on file. -/
def exBrand : BrandRow :=
  { id := 9, name := "Acme" }

/-- A product linked to `exCategory` and `exBrand`, with sub-rows. -/
def exProduct1 : ProductRow :=
  { id := 1, name := "Alpha", slug := "alpha", description := "first product",
    price_amount := 100, sku := "SKU-1", brand_id := some 9, tags := ["sale"],
    created_at := 10 }

/-- A second product with no associations. -/
def exProduct2 : ProductRow :=
  { id := 2, name := "Beta", slug := "beta", description := "second product",
    price_amount := 300, sku := "SKU-2", created_at := 20 }

/-- A small store with two products, one category link, and sub-rows owned by
product 1. -/
def exDb : Db :=
  { products := [exProduct1, exProduct2],
    categories := [exCategory],
    brands := [exBrand],
    product_categories := [(1, 5)],
    images := [{ product_id := 1, url := "http://img/alpha" }],
    variants := [{ parent_product_id := 1, name := "Alpha V1", sku := "SKU-1-V1",
                   price_amount := 100, price_currency := "USD" }],
    config_options := [{ product_id := 1, name := "color", values := "[\"red\"]" }],
    reviews := [{ product_id := 1 }] }

/-- A well-formed image payload dictionary. -/
def exGoodImage : ImageDict :=
  { url := some "http://img/good" }

/-- A malformed image payload dictionary: the `"url"` key is absent. -/
def exBadImage : ImageDict :=
  { alt := some "broken" }

/-- A creation payload whose images list holds one well-formed and one
malformed entry. -/
def exCreateDto : ProductCreateDTO :=
  { name := "Cam", slug := "cam", description := "a camera", price := 100,
    sku := "CAM-1", images := [exGoodImage, exBadImage] }

/-- An update payload whose only present field is a category list naming a
category that does not exist. -/
def exUpdateDto : ProductUpdateDTO :=
  { category_ids := some [7] }

/-- An update payload that replaces only the images collection. -/
def exImgUpdateDto : ProductUpdateDTO :=
  { images := some [exGoodImage] }

/-- The store after applying `exImgUpdateDto` to product 1 of `exDb` at time
99: the scalar row keeps its values (only `updated_at` moves), the image
rows of product 1 are replaced, everything else is untouched. -/
def exUpdatedDb : Db :=
  { products := [{ exProduct1 with updated_at := 99 }, exProduct2],
    categories := [exCategory],
    brands := [exBrand],
    product_categories := [(1, 5)],
    images := [{ product_id := 1, url := "http://img/good" }],
    variants := [{ parent_product_id := 1, name := "Alpha V1", sku := "SKU-1-V1",
                   price_amount := 100, price_currency := "USD" }],
    config_options := [{ product_id := 1, name := "color", values := "[\"red\"]" }],
    reviews := [{ product_id := 1 }] }

/-- A creation payload naming one existing category (5) and one dangling
category id (777). -/
def exCreateDtoDangling : ProductCreateDTO :=
  { name := "Widget", slug := "widget", description := "a widget", price := 50,
    sku := "W-1", category_ids := [5, 777] }

/-! ## Theorems -/

/-- C3: the spec requires a GET on a nonexistent category id to surface as
HTTP 404 with a detail naming that id, and the route even builds that exact
`HTTPException(404, ...)` — but the handler's own blanket
`except Exception as e: raise HTTPException(500, str(e))` catches it, so the
request actually surfaces as HTTP 500 wrapping the 404 text.  The claim is
right about the intent; the code is wrong. -/
theorem get_category_missing_id_becomes_500 (cats : List CategoryRow) (category_id : Nat)
    (h : category_get_by_id cats category_id = none) :
    get_category cats category_id =
      .error ⟨500, strOfHTTPExc ⟨404, "Category " ++ toString category_id ++ " not found"⟩⟩ := by
  simp [get_category, h]

/-- C3 witness: on an empty category table, requesting category 7 yields the
wrapped 500 response, whose status code is not 404. -/
theorem get_category_missing_id_becomes_500_witness :
    category_get_by_id [] 7 = none ∧
    get_category [] 7 = .error ⟨500, strOfHTTPExc ⟨404, "Category " ++ toString 7 ++ " not found"⟩⟩ ∧
    (500 : Nat) ≠ 404 :=
  ⟨rfl, get_category_missing_id_becomes_500 [] 7 rfl, by decide⟩

/-- C7: creating a product without an explicit slug never reaches slug
generation: `ProductCreateDTO.set_slug` runs
`from python_slugify import slugify`, and no module of that name exists (the
python-slugify distribution installs module `slugify`, which the three other
slug call sites of this repository import), so validation of the payload
raises `ModuleNotFoundError` instead of producing a slug.  The repository's
own (unused on this path) `slugify_helper.slugify` would have produced the
slug the claim describes. -/
theorem set_slug_import_crashes_on_generated_slug :
    set_slug none "Test Product" = .error (.moduleNotFoundError "python_slugify") ∧
    set_slug (some "") "Test Product" = .error (.moduleNotFoundError "python_slugify") ∧
    slugify "Test Product" = "test-product" := by
  refine ⟨rfl, rfl, ?_⟩
  decide

/-- C10: one malformed image entry (a dict without the `"url"` key) is indeed
caught and skipped inside `_add_images` — but `create` then rebuilds the
aggregate's image list with `img["url"]` outside any `try`, so the same entry
raises `KeyError` there and the whole create fails, contradicting the
`_add_images` comment "Continue with the next image instead of failing the
whole operation". -/
theorem malformed_image_fails_whole_create :
    buildCreateImage 3 exBadImage = .error (.keyError "url") ∧
    (add_images exDb 3 [exGoodImage, exBadImage]).images =
      exDb.images ++ [{ product_id := 3, url := "http://img/good" }] ∧
    create_product exDb 3 0 exCreateDto = .error (.keyError "url") := by
  refine ⟨rfl, by decide, ?_⟩
  rfl

/-- C5 counterexample: `"__tablename__"` is not a sortable column of the
product model, yet listing with `sort_by="__tablename__"` raises
(`getattr` finds the class attribute, a plain string, and `.asc()` on it is
an `AttributeError`) instead of silently falling back to `created_at`. -/
theorem sort_by_tablename_raises :
    sortableColumns.contains "__tablename__" = false ∧
    list_products exDb { sort_by := some "__tablename__" } =
      .error (.attributeError "__tablename__") := by
  refine ⟨by decide, ?_⟩
  rfl

/-- C6 counterexample: a filter with `price_min > price_max` does not always
return an empty page — combined with `sort_by="__tablename__"` the list
operation raises at query-build time before any row is fetched. -/
theorem crossed_price_bounds_can_still_raise :
    (100 : Int) < 200 ∧
    list_products exDb
        { price_min := some 200, price_max := some 100, sort_by := some "__tablename__" } =
      .error (.attributeError "__tablename__") := by
  refine ⟨by decide, ?_⟩
  rfl

/-- C5 amended: for every filter whose truthy `sort_by` is certainly not
the name of any attribute of the product model class — it has no leading
underscore and is none of the column, relationship, or class-level
attribute names (`__tablename__`, `metadata`, `registry`, `mro`) — the
list operation does not raise: `getattr` returns the `created_at` default
and the query behaves exactly as sorting by `created_at`, still honouring
`sort_order`.  (For names that are attributes but not columns, such as
`__tablename__` or `metadata`, the operation instead raises — see the
counterexample.) -/
theorem unknown_sort_by_falls_back_to_created_at (db : Db) (f : ProductFilterDTO) (s : String)
    (hs : f.sort_by = some s) (hne : (s == "") = false)
    (h1 : sortableColumns.contains s = false)
    (h2 : relationshipAttrs.contains s = false)
    (h3 : classLevelAttrs.contains s = false)
    (h4 : startsWithUnderscore s = false) :
    list_products db f = list_products db { f with sort_by := some "created_at" } ∧
    ∃ page total, list_products db f = .ok (page, total) := by
  have e1 : ("created_at" == "") = false := by decide
  have e2 : sortableColumns.contains "created_at" = true := by decide
  have h1' : ¬ s ∈ sortableColumns := by simpa using h1
  have h2' : ¬ s ∈ relationshipAttrs := by simpa using h2
  have h3' : ¬ s ∈ classLevelAttrs := by simpa using h3
  have hne' : ¬ (s = "") := by simpa using hne
  have hA : apply_sorting f = .ordered "created_at" (descRequested f) := by
    simp [apply_sorting, hs, hne', h1', h2', h3', h4]
  have hB : apply_sorting { f with sort_by := some "created_at" } =
      .ordered "created_at" (descRequested f) := by
    simp [apply_sorting, e1, e2]
    rfl
  constructor
  · simp only [list_products, build_list_queries, runListQuery, hA, hB]
    rfl
  · cases hres : list_products db f with
    | ok pr =>
        obtain ⟨pg, tt⟩ := pr
        exact ⟨pg, tt, rfl⟩
    | error e =>
        exfalso
        simp [list_products, build_list_queries, runListQuery, hA] at hres

/-- C5 amended witness: sorting by a name that is no attribute of the model
falls back to `created_at` on the concrete store. -/
theorem unknown_sort_by_falls_back_witness :
    list_products exDb { sort_by := some "nonexistent_field" } =
      list_products exDb { sort_by := some "created_at" } ∧
    ∃ page total, list_products exDb { sort_by := some "nonexistent_field" } = .ok (page, total) :=
  unknown_sort_by_falls_back_to_created_at exDb { sort_by := some "nonexistent_field" }
    "nonexistent_field" rfl (by decide) (by decide) (by decide) (by decide) (by decide)

/-- C6 amended: for every filter with `price_min` strictly above `price_max`
whose sorting resolves to a column — `sort_by` absent, empty, a column
name, or a name that is certainly no attribute of the model class (no
leading underscore and not a column, relationship or class-level attribute
name) — the list operation does not raise and returns the empty page with
total 0: the two inclusive price clauses are conjoined into an
unsatisfiable predicate. -/
theorem crossed_price_bounds_empty_result (db : Db) (f : ProductFilterDTO) (pm px : Int)
    (hmin : f.price_min = some pm) (hmax : f.price_max = some px) (hlt : px < pm)
    (hsort : (apply_sorting f).isOrdered = true) :
    list_products db f = .ok ([], 0) := by
  have hmemGe : Cond.priceGe pm ∈ build_filter_conditions f := by
    cases hc : f.category_id <;> cases hb : f.brand_id <;>
      simp [build_filter_conditions, build_basic_filters, hmin, hmax, hc, hb]
  have hmemLe : Cond.priceLe px ∈ build_filter_conditions f := by
    cases hc : f.category_id <;> cases hb : f.brand_id <;>
      simp [build_filter_conditions, build_basic_filters, hmin, hmax, hc, hb]
  have hfalse : ∀ r, matchesConditions db.product_categories (build_filter_conditions f) r = false := by
    intro r
    cases hm : matchesConditions db.product_categories (build_filter_conditions f) r with
    | false => rfl
    | true =>
        exfalso
        simp only [matchesConditions, List.all_eq_true] at hm
        have hge := hm _ hmemGe
        have hle := hm _ hmemLe
        simp [evalCond] at hge hle
        omega
  have hnil : db.products.filter (matchesConditions db.product_categories (build_filter_conditions f)) = [] := by
    refine List.filter_eq_nil_iff.mpr ?_
    intro a _
    simp [hfalse a]
  obtain ⟨col, desc, heq⟩ : ∃ col desc, apply_sorting f = .ordered col desc := by
    cases hsp : apply_sorting f with
    | ordered c d => exact ⟨c, d, rfl⟩
    | attrErrorAt a => rw [hsp] at hsort; simp [SortSpec.isOrdered] at hsort
    | relationshipOrder a d => rw [hsp] at hsort; simp [SortSpec.isOrdered] at hsort
    | indeterminateAttr a => rw [hsp] at hsort; simp [SortSpec.isOrdered] at hsort
  cases ho : f.offset <;> cases hl : f.limit <;>
    simp [list_products, build_list_queries, runListQuery, heq, hnil, sortRows, sortByLe,
          runCountQuery, ho, hl]

/-- C6 amended witness: crossed price bounds on the concrete store yield
the empty page and total 0. -/
theorem crossed_price_bounds_empty_result_witness :
    list_products exDb { price_min := some 200, price_max := some 100 } = .ok ([], 0) :=
  crossed_price_bounds_empty_result exDb { price_min := some 200, price_max := some 100 }
    200 100 rfl rfl (by decide) (by decide)

/-- Helper: with no category id, the basic filters contain no category clause. -/
theorem build_basic_filters_no_category (f : ProductFilterDTO) (h : f.category_id = none) :
    (build_basic_filters f).all (fun c => !c.isCategoryCond) = true := by
  cases hb : f.brand_id <;> cases hp : f.price_min <;> cases hq : f.price_max <;>
    simp [build_basic_filters, h, hb, hp, hq, Cond.isCategoryCond]

/-- Helper: the additional filters never contain a category clause. -/
theorem build_additional_filters_no_category (f : ProductFilterDTO) :
    (build_additional_filters f).all (fun c => !c.isCategoryCond) = true := by
  cases ht : f.tags <;> cases ha : f.is_available <;> cases hn : f.is_new <;>
    cases hc : f.condition <;>
    simp [build_additional_filters, ht, ha, hn, hc, Cond.isCategoryCond]

/-- C1: when `category_id` is `None`, `_build_basic_filters` skips the
category branch entirely, so the clause list contains no category clause and
the whole list operation — page and reported total alike — coincides with
the same query run with no category filter at all. -/
theorem list_ignores_absent_category_filter (db : Db) (f : ProductFilterDTO)
    (h : f.category_id = none) :
    (build_filter_conditions f).all (fun c => !c.isCategoryCond) = true ∧
    list_products db f = list_products_no_category db f := by
  have hconds : build_filter_conditions f = build_filter_conditions_no_category f := by
    simp [build_filter_conditions, build_filter_conditions_no_category, build_basic_filters,
          h, List.append_assoc]
  constructor
  · simp only [build_filter_conditions, List.all_append, Bool.and_eq_true]
    refine ⟨⟨build_basic_filters_no_category f h, ?_⟩, build_additional_filters_no_category f⟩
    cases hs : f.search with
    | none => simp
    | some s => split <;> simp [build_search_filters, Cond.isCategoryCond]
  · simp only [list_products, list_products_no_category, build_list_queries, hconds]

/-- C1 witness: a filter with brand, price and availability constraints but
no category constraint produces the category-free query on the concrete
store. -/
theorem list_ignores_absent_category_filter_witness :
    (build_filter_conditions
        { brand_id := some 9, price_min := some 50, is_available := some true }).all
      (fun c => !c.isCategoryCond) = true ∧
    list_products exDb { brand_id := some 9, price_min := some 50, is_available := some true } =
      list_products_no_category exDb
        { brand_id := some 9, price_min := some 50, is_available := some true } :=
  list_ignores_absent_category_filter exDb
    { brand_id := some 9, price_min := some 50, is_available := some true } rfl

/-- C2: both queries built by `_build_list_queries` carry the same clause
list; pagination is attached only to the row query, so the reported total is
the number of all rows matching the filter, whatever `limit` and `offset`
are set to. -/
theorem list_total_ignores_pagination (db : Db) (f : ProductFilterDTO)
    (l o : Option Nat) (page : List ProductRow) (total : Nat)
    (h : list_products db f = .ok (page, total)) :
    (build_list_queries f).1.conditions = (build_list_queries f).2.conditions ∧
    total = (db.products.filter
      (matchesConditions db.product_categories (build_filter_conditions f))).length ∧
    Except.map Prod.snd (list_products db { f with limit := l, offset := o }) =
      Except.ok total := by
  refine ⟨rfl, ?_, ?_⟩
  · cases hsp : apply_sorting f with
    | ordered c d =>
        simp only [list_products, build_list_queries, runListQuery, hsp] at h
        simp only [Except.ok.injEq, Prod.mk.injEq] at h
        rw [← h.2]
        rfl
    | attrErrorAt a =>
        simp [list_products, build_list_queries, runListQuery, hsp] at h
    | relationshipOrder a d =>
        simp [list_products, build_list_queries, runListQuery, hsp] at h
    | indeterminateAttr a =>
        simp [list_products, build_list_queries, runListQuery, hsp] at h
  · cases hsp : apply_sorting f with
    | ordered c d =>
        have hsp2 : apply_sorting { f with limit := l, offset := o } = .ordered c d := by
          rw [← hsp]
          rfl
        simp only [list_products, build_list_queries, runListQuery, hsp] at h
        simp only [Except.ok.injEq, Prod.mk.injEq] at h
        simp only [list_products, build_list_queries, runListQuery, hsp2, Except.map]
        rw [← h.2]
        rfl
    | attrErrorAt a =>
        simp [list_products, build_list_queries, runListQuery, hsp] at h
    | relationshipOrder a d =>
        simp [list_products, build_list_queries, runListQuery, hsp] at h
    | indeterminateAttr a =>
        simp [list_products, build_list_queries, runListQuery, hsp] at h

/-- C2 witness: on the concrete store with a brand filter, the total equals
the count of all matching rows and is unchanged when pagination is set to
`limit=1, offset=1`. -/
theorem list_total_ignores_pagination_witness :
    (build_list_queries { brand_id := some 9 }).1.conditions =
      (build_list_queries { brand_id := some 9 }).2.conditions ∧
    1 = (exDb.products.filter
      (matchesConditions exDb.product_categories (build_filter_conditions { brand_id := some 9 }))).length ∧
    Except.map Prod.snd
        (list_products exDb { ({ brand_id := some 9 } : ProductFilterDTO) with
          limit := some 1, offset := some 1 }) = Except.ok 1 :=
  list_total_ignores_pagination exDb { brand_id := some 9 } (some 1) (some 1)
    [exProduct1] 1 (by rfl)

/-- C4: `delete` returns `True` exactly when a row with the id exists; on a
missing id it returns `False` with the store untouched (no error); on a hit
it removes the product row and every owned sub-row (images, variants,
config options, reviews, category associations). -/
theorem delete_returns_flag_and_cascades (db : Db) (product_id : Nat) :
    ((delete_product db product_id).2 = db.products.any (fun p => p.id == product_id)) ∧
    ((delete_product db product_id).2 = false → (delete_product db product_id).1 = db) ∧
    ((delete_product db product_id).2 = true →
      ((delete_product db product_id).1.products.all (fun p => !(p.id == product_id)) = true) ∧
      ((delete_product db product_id).1.images.all (fun i => !(i.product_id == product_id)) = true) ∧
      ((delete_product db product_id).1.variants.all (fun v => !(v.parent_product_id == product_id)) = true) ∧
      ((delete_product db product_id).1.config_options.all (fun c => !(c.product_id == product_id)) = true) ∧
      ((delete_product db product_id).1.reviews.all (fun r => !(r.product_id == product_id)) = true) ∧
      ((delete_product db product_id).1.product_categories.all (fun pc => !(pc.1 == product_id)) = true)) := by
  cases hf : db.products.find? (fun p => p.id == product_id) with
  | none =>
      have hany : db.products.any (fun p => p.id == product_id) = false := by
        rw [List.any_eq_false]
        intro p hp
        have hnp := List.find?_eq_none.mp hf p hp
        simpa using hnp
      simp [delete_product, hf, hany]
  | some p =>
      have hmem := List.mem_of_find?_eq_some hf
      have hpred := List.find?_some hf
      have hany : db.products.any (fun p => p.id == product_id) = true :=
        List.any_eq_true.mpr ⟨p, hmem, hpred⟩
      refine ⟨by simp [delete_product, hf, hany], by simp [delete_product, hf], ?_⟩
      intro _
      refine ⟨?_, ?_, ?_, ?_, ?_, ?_⟩ <;>
        simp [delete_product, hf, List.all_eq_true, List.mem_filter]

/-- C4 witness: deleting product 1 returns `True` and clears its sub-rows;
deleting the absent product 42 returns `False` and leaves the store as is. -/
theorem delete_returns_flag_and_cascades_witness :
    ((delete_product exDb 1).2 = exDb.products.any (fun p => p.id == 1)) ∧
    ((delete_product exDb 42).2 = false → (delete_product exDb 42).1 = exDb) ∧
    ((delete_product exDb 1).2 = true →
      ((delete_product exDb 1).1.products.all (fun p => !(p.id == 1)) = true) ∧
      ((delete_product exDb 1).1.images.all (fun i => !(i.product_id == 1)) = true) ∧
      ((delete_product exDb 1).1.variants.all (fun v => !(v.parent_product_id == 1)) = true) ∧
      ((delete_product exDb 1).1.config_options.all (fun c => !(c.product_id == 1)) = true) ∧
      ((delete_product exDb 1).1.reviews.all (fun r => !(r.product_id == 1)) = true) ∧
      ((delete_product exDb 1).1.product_categories.all (fun pc => !(pc.1 == 1)) = true)) :=
  ⟨(delete_returns_flag_and_cascades exDb 1).1,
   (delete_returns_flag_and_cascades exDb 42).2.1,
   (delete_returns_flag_and_cascades exDb 1).2.2⟩

/-- C8 counterexample: an update whose `category_ids` payload names only the
nonexistent category 7 deletes the existing link to category 5 and replaces
the collection with the empty list — not with the payload's collection
`[(1, 7)]` — because `_update_categories` keeps only ids found in the
`categories` table. -/
theorem update_drops_dangling_category_ids :
    exUpdateDto.category_ids = some [7] ∧
    Except.map (fun od => Option.map (fun d => d.product_categories) od)
        (update_product exDb 1 exUpdateDto 99) = .ok (some []) ∧
    ([] : List (Nat × Nat)) ≠ [(1, 7)] := by
  refine ⟨rfl, ?_, by decide⟩
  rfl

/-- Helper: the categories stage touches only the association table, and
replaces the product's links by the existing payload ids when present. -/
theorem update_categories_table_spec (db : Db) (pid : Nat) (o : Option (List Nat)) :
    (update_categories_table db pid o).products = db.products ∧
    (update_categories_table db pid o).categories = db.categories ∧
    (update_categories_table db pid o).images = db.images ∧
    (update_categories_table db pid o).variants = db.variants ∧
    (update_categories_table db pid o).config_options = db.config_options ∧
    (o = none → (update_categories_table db pid o).product_categories = db.product_categories) ∧
    (∀ cids, o = some cids →
      (update_categories_table db pid o).product_categories =
        db.product_categories.filter (fun pc => !(pc.1 == pid)) ++
          (cids.filter (fun c => db.categories.any (fun cat => cat.id == c))).map
            (fun c => (pid, c))) := by
  cases o <;> simp [update_categories_table]

/-- Helper: effect and frame of the images stage on success. -/
theorem update_images_table_spec (db : Db) (pid : Nat) (o : Option (List ImageDict)) (db2 : Db)
    (h : update_images_table db pid o = .ok db2) :
    db2.products = db.products ∧ db2.categories = db.categories ∧
    db2.product_categories = db.product_categories ∧ db2.variants = db.variants ∧
    db2.config_options = db.config_options ∧
    (o = none → db2.images = db.images) ∧
    (∀ imgs, o = some imgs → ∃ rows, imgs.mapM (buildUpdateImage pid) = Except.ok rows ∧
      db2.images = db.images.filter (fun i => !(i.product_id == pid)) ++ rows) := by
  cases o with
  | none =>
      simp only [update_images_table] at h
      injection h with h2
      subst h2
      simp
  | some imgs =>
      simp only [update_images_table] at h
      cases hm : imgs.mapM (buildUpdateImage pid) with
      | error e => rw [hm] at h; simp [Except.map] at h
      | ok rows =>
          rw [hm] at h
          simp only [Except.map, Except.ok.injEq] at h
          subst h
          refine ⟨rfl, rfl, rfl, rfl, rfl, ?_, ?_⟩
          · intro hx; cases hx
          · intro imgs2 h2
            injection h2 with h3
            subst h3
            exact ⟨rows, hm, rfl⟩

/-- Helper: effect and frame of the variants stage on success. -/
theorem update_variants_table_spec (db : Db) (pid : Nat) (currency : String)
    (o : Option (List VariantDict)) (db2 : Db)
    (h : update_variants_table db pid currency o = .ok db2) :
    db2.products = db.products ∧ db2.categories = db.categories ∧
    db2.product_categories = db.product_categories ∧ db2.images = db.images ∧
    db2.config_options = db.config_options ∧
    (o = none → db2.variants = db.variants) ∧
    (∀ vs, o = some vs → ∃ rows, vs.mapM (buildUpdateVariant pid currency) = Except.ok rows ∧
      db2.variants = db.variants.filter (fun v => !(v.parent_product_id == pid)) ++ rows) := by
  cases o with
  | none =>
      simp only [update_variants_table] at h
      injection h with h2
      subst h2
      simp
  | some vs =>
      simp only [update_variants_table] at h
      cases hm : vs.mapM (buildUpdateVariant pid currency) with
      | error e => rw [hm] at h; simp [Except.map] at h
      | ok rows =>
          rw [hm] at h
          simp only [Except.map, Except.ok.injEq] at h
          subst h
          refine ⟨rfl, rfl, rfl, rfl, rfl, ?_, ?_⟩
          · intro hx; cases hx
          · intro vs2 h2
            injection h2 with h3
            subst h3
            exact ⟨rows, hm, rfl⟩

/-- Helper: effect and frame of the config-options stage on success. -/
theorem update_config_table_spec (db : Db) (pid : Nat) (o : Option (List ConfigDict)) (db2 : Db)
    (h : update_config_table db pid o = .ok db2) :
    db2.products = db.products ∧ db2.categories = db.categories ∧
    db2.product_categories = db.product_categories ∧ db2.images = db.images ∧
    db2.variants = db.variants ∧
    (o = none → db2.config_options = db.config_options) ∧
    (∀ cfgs, o = some cfgs → ∃ rows, cfgs.mapM (buildUpdateConfig pid) = Except.ok rows ∧
      db2.config_options = db.config_options.filter (fun c => !(c.product_id == pid)) ++ rows) := by
  cases o with
  | none =>
      simp only [update_config_table] at h
      injection h with h2
      subst h2
      simp
  | some cfgs =>
      simp only [update_config_table] at h
      cases hm : cfgs.mapM (buildUpdateConfig pid) with
      | error e => rw [hm] at h; simp [Except.map] at h
      | ok rows =>
          rw [hm] at h
          simp only [Except.map, Except.ok.injEq] at h
          subst h
          refine ⟨rfl, rfl, rfl, rfl, rfl, ?_, ?_⟩
          · intro hx; cases hx
          · intro cfgs2 h2
            injection h2 with h3
            subst h3
            exact ⟨rows, hm, rfl⟩

/-- Helper: replacing the matching row in place is seen by `find?`. -/
theorem find?_map_replace (l : List ProductRow) (pid : Nat) (p p2 : ProductRow)
    (h : l.find? (fun q => q.id == pid) = some p) (h2 : (p2.id == pid) = true) :
    (l.map (fun q => if q.id == pid then p2 else q)).find? (fun q => q.id == pid) = some p2 := by
  induction l with
  | nil => simp at h
  | cons a t ih =>
      cases ha : (a.id == pid) with
      | true =>
          simp only [List.map_cons, ha, if_true]
          exact List.find?_cons_of_pos _ h2
      | false =>
          rw [List.find?_cons_of_neg _ (by simp [ha])] at h
          simp only [List.map_cons, ha, if_false]
          rw [List.find?_cons_of_neg _ (by simp [ha])]
          exact ih h

/-- Helper: every scalar field left `None` in the update payload is kept at
its stored value by the merge. -/
theorem merge_scalars_frame (p : ProductRow) (dto : ProductUpdateDTO) (now : Int) :
    (dto.name = none → (merge_scalars p dto now).name = p.name) ∧
    (dto.slug = none → (merge_scalars p dto now).slug = p.slug) ∧
    (dto.description = none → (merge_scalars p dto now).description = p.description) ∧
    (dto.summary = none → (merge_scalars p dto now).summary = p.summary) ∧
    (dto.price = none → (merge_scalars p dto now).price_amount = p.price_amount) ∧
    (dto.compare_at_price = none → (merge_scalars p dto now).compare_at_price = p.compare_at_price) ∧
    (dto.currency = none → (merge_scalars p dto now).price_currency = p.price_currency) ∧
    (dto.brand_id = none → (merge_scalars p dto now).brand_id = p.brand_id) ∧
    (dto.model = none → (merge_scalars p dto now).model = p.model) ∧
    (dto.sku = none → (merge_scalars p dto now).sku = p.sku) ∧
    (dto.stock = none → (merge_scalars p dto now).stock = p.stock) ∧
    (dto.is_available = none → (merge_scalars p dto now).is_available = p.is_available) ∧
    (dto.is_new = none → (merge_scalars p dto now).is_new = p.is_new) ∧
    (dto.is_refurbished = none → (merge_scalars p dto now).is_refurbished = p.is_refurbished) ∧
    (dto.condition = none → (merge_scalars p dto now).condition = p.condition) ∧
    (dto.has_variants = none → (merge_scalars p dto now).has_variants = p.has_variants) ∧
    (dto.tags = none → (merge_scalars p dto now).tags = p.tags) ∧
    (dto.attributes = none → (merge_scalars p dto now).attributes = p.attributes) ∧
    (dto.highlighted_features = none →
      (merge_scalars p dto now).highlighted_features = p.highlighted_features) ∧
    (dto.shipping = none → (merge_scalars p dto now).shipping = p.shipping) ∧
    (dto.warranty = none → (merge_scalars p dto now).warranty = p.warranty) := by
  refine ⟨?_, ?_, ?_, ?_, ?_, ?_, ?_, ?_, ?_, ?_, ?_, ?_, ?_, ?_, ?_, ?_, ?_, ?_, ?_, ?_, ?_⟩ <;>
    · intro hx
      simp [merge_scalars, hx]

/-- C8 amended: on a successful update of an existing product, every scalar
field left `None` keeps its stored value; each sub-collection field present
in the payload has the existing collection deleted and replaced by the rows
built from the payload (for category links restricted, as the code does, to
ids naming existing categories); each absent sub-collection field is left
untouched. -/
theorem update_partial_payload_semantics (db : Db) (product_id : Nat) (dto : ProductUpdateDTO)
    (now : Int) (db2 : Db) (p : ProductRow)
    (hp : db.products.find? (fun q => q.id == product_id) = some p)
    (h : update_product db product_id dto now = .ok (some db2)) :
    (db2.products.find? (fun q => q.id == product_id) = some (merge_scalars p dto now)) ∧
    ((dto.name = none → (merge_scalars p dto now).name = p.name) ∧
     (dto.slug = none → (merge_scalars p dto now).slug = p.slug) ∧
     (dto.description = none → (merge_scalars p dto now).description = p.description) ∧
     (dto.summary = none → (merge_scalars p dto now).summary = p.summary) ∧
     (dto.price = none → (merge_scalars p dto now).price_amount = p.price_amount) ∧
     (dto.compare_at_price = none → (merge_scalars p dto now).compare_at_price = p.compare_at_price) ∧
     (dto.currency = none → (merge_scalars p dto now).price_currency = p.price_currency) ∧
     (dto.brand_id = none → (merge_scalars p dto now).brand_id = p.brand_id) ∧
     (dto.model = none → (merge_scalars p dto now).model = p.model) ∧
     (dto.sku = none → (merge_scalars p dto now).sku = p.sku) ∧
     (dto.stock = none → (merge_scalars p dto now).stock = p.stock) ∧
     (dto.is_available = none → (merge_scalars p dto now).is_available = p.is_available) ∧
     (dto.is_new = none → (merge_scalars p dto now).is_new = p.is_new) ∧
     (dto.is_refurbished = none → (merge_scalars p dto now).is_refurbished = p.is_refurbished) ∧
     (dto.condition = none → (merge_scalars p dto now).condition = p.condition) ∧
     (dto.has_variants = none → (merge_scalars p dto now).has_variants = p.has_variants) ∧
     (dto.tags = none → (merge_scalars p dto now).tags = p.tags) ∧
     (dto.attributes = none → (merge_scalars p dto now).attributes = p.attributes) ∧
     (dto.highlighted_features = none →
       (merge_scalars p dto now).highlighted_features = p.highlighted_features) ∧
     (dto.shipping = none → (merge_scalars p dto now).shipping = p.shipping) ∧
     (dto.warranty = none → (merge_scalars p dto now).warranty = p.warranty)) ∧
    (dto.category_ids = none → db2.product_categories = db.product_categories) ∧
    (∀ cids, dto.category_ids = some cids →
      db2.product_categories =
        db.product_categories.filter (fun pc => !(pc.1 == product_id)) ++
          (cids.filter (fun c => db.categories.any (fun cat => cat.id == c))).map
            (fun c => (product_id, c))) ∧
    (dto.images = none → db2.images = db.images) ∧
    (∀ imgs, dto.images = some imgs → ∃ rows,
      imgs.mapM (buildUpdateImage product_id) = Except.ok rows ∧
      db2.images = db.images.filter (fun i => !(i.product_id == product_id)) ++ rows) ∧
    (dto.variants = none → db2.variants = db.variants) ∧
    (∀ vs, dto.variants = some vs → ∃ rows,
      vs.mapM (buildUpdateVariant product_id (merge_scalars p dto now).price_currency) =
        Except.ok rows ∧
      db2.variants = db.variants.filter (fun v => !(v.parent_product_id == product_id)) ++ rows) ∧
    (dto.config_options = none → db2.config_options = db.config_options) ∧
    (∀ cfgs, dto.config_options = some cfgs → ∃ rows,
      cfgs.mapM (buildUpdateConfig product_id) = Except.ok rows ∧
      db2.config_options =
        db.config_options.filter (fun c => !(c.product_id == product_id)) ++ rows) := by
  simp only [update_product, hp] at h
  cases hI : update_images_table
      (update_categories_table
        (update_scalars_stage db product_id (merge_scalars p dto now))
        product_id dto.category_ids)
      product_id dto.images with
  | error e => rw [hI] at h; simp at h
  | ok db3 =>
  simp only [hI] at h
  cases hV : update_variants_table db3 product_id
      (merge_scalars p dto now).price_currency dto.variants with
  | error e => rw [hV] at h; simp at h
  | ok db4 =>
  simp only [hV] at h
  cases hC : update_config_table db4 product_id dto.config_options with
  | error e => rw [hC] at h; simp at h
  | ok db5 =>
  simp only [hC, Except.ok.injEq, Option.some.injEq] at h
  subst h
  obtain ⟨cP, cC, cI, cV, cCf, cN, cS⟩ :=
    update_categories_table_spec
      (update_scalars_stage db product_id (merge_scalars p dto now))
      product_id dto.category_ids
  obtain ⟨iP, iC, iPc, iV, iCf, iN, iS⟩ := update_images_table_spec _ _ _ _ hI
  obtain ⟨vP, vC, vPc, vI, vCf, vN, vS⟩ := update_variants_table_spec _ _ _ _ _ hV
  obtain ⟨fP, fC, fPc, fI, fV, fN, fS⟩ := update_config_table_spec _ _ _ _ hC
  have hid : ((merge_scalars p dto now).id == product_id) = true := by
    have hpred := List.find?_some hp
    exact hpred
  refine ⟨?_, merge_scalars_frame p dto now, ?_, ?_, ?_, ?_, ?_, ?_, ?_, ?_⟩
  · rw [fP, vP, iP, cP]
    exact find?_map_replace db.products product_id p (merge_scalars p dto now) hp hid
  · intro hc
    rw [fPc, vPc, iPc, cN hc]
    rfl
  · intro cids hc
    rw [fPc, vPc, iPc, cS cids hc]
    rfl
  · intro hi
    obtain hieq := iN hi
    rw [fI, vI, hieq, cI]
    rfl
  · intro imgs hi
    obtain ⟨rows, hrows, hieq⟩ := iS imgs hi
    refine ⟨rows, hrows, ?_⟩
    rw [fI, vI, hieq, cI]
    rfl
  · intro hv
    rw [fV, vN hv, iV, cV]
    rfl
  · intro vs hv
    obtain ⟨rows, hrows, hveq⟩ := vS vs hv
    refine ⟨rows, hrows, ?_⟩
    rw [fV, hveq, iV, cV]
    rfl
  · intro hc
    rw [fN hc, vCf, iCf, cCf]
    rfl
  · intro cfgs hc
    obtain ⟨rows, hrows, hceq⟩ := fS cfgs hc
    refine ⟨rows, hrows, ?_⟩
    rw [hceq, vCf, iCf, cCf]
    rfl

/-- C8 amended witness: updating product 1 with only an images payload
stores the merged scalars, replaces the image rows, and leaves category
links and variants untouched. -/
theorem update_partial_payload_semantics_witness :
    exUpdatedDb.products.find? (fun q => q.id == 1) =
      some (merge_scalars exProduct1 exImgUpdateDto 99) ∧
    exUpdatedDb.product_categories = exDb.product_categories ∧
    exUpdatedDb.variants = exDb.variants ∧
    (∃ rows, [exGoodImage].mapM (buildUpdateImage 1) = Except.ok rows ∧
      exUpdatedDb.images = exDb.images.filter (fun i => !(i.product_id == 1)) ++ rows) :=
  have hmain := update_partial_payload_semantics exDb 1 exImgUpdateDto 99 exUpdatedDb
    exProduct1 rfl rfl
  ⟨hmain.1, hmain.2.2.1 rfl, hmain.2.2.2.2.2.2.1 rfl, hmain.2.2.2.2.2.1 [exGoodImage] rfl⟩

/-- Helper: existence by `any` agrees with `find?` producing a hit. -/
theorem any_id_eq_find?_isSome (cats : List CategoryRow) (c : Nat) :
    cats.any (fun cat => cat.id == c) = (cats.find? (fun cat => cat.id == c)).isSome := by
  induction cats with
  | nil => rfl
  | cons a t ih => cases ha : (a.id == c) <;> simp [List.any_cons, List.find?_cons, ha, ih]

/-- Helper: restricting a list to the inputs on which a partial map is
defined does not change its `filterMap` image. -/
theorem filterMap_restrict {α β : Type} (l : List α) (f : α → Option β) (p : α → Bool)
    (hp : ∀ a, p a = (f a).isSome) : (l.filter p).filterMap f = l.filterMap f := by
  induction l with
  | nil => rfl
  | cons a t ih =>
      cases hfa : f a with
      | none =>
          have hpa : p a = false := by rw [hp a, hfa]; rfl
          simp [List.filter_cons, List.filterMap_cons, hfa, hpa, ih]
      | some b =>
          have hpa : p a = true := by rw [hp a, hfa]; rfl
          simp [List.filter_cons, List.filterMap_cons, hfa, hpa, ih]

/-- Helper: filtering twice by the same predicate filters once. -/
theorem filter_self_idem {α : Type} (l : List α) (p : α → Bool) :
    (l.filter p).filter p = l.filter p := by
  induction l with
  | nil => rfl
  | cons a t ih => cases ha : p a <;> simp [List.filter_cons, ha, ih]

/-- Helper: the categories stage of `create` gives the same store on the raw
payload ids and on the payload ids pre-restricted to existing categories —
`_add_categories` performs exactly that restriction itself. -/
theorem create_categories_stage_clean (db1 : Db) (cats : List CategoryRow)
    (hc : db1.categories = cats) (newId : Nat) (cids : List Nat) :
    create_categories_stage db1 newId cids =
      create_categories_stage db1 newId
        (cids.filter (fun c => cats.any (fun cat => cat.id == c))) := by
  subst hc
  cases hce : cids.isEmpty with
  | true =>
      have h0 : cids = [] := List.isEmpty_iff.mp hce
      subst h0
      rfl
  | false =>
      cases hce2 : (cids.filter (fun c => db1.categories.any (fun cat => cat.id == c))).isEmpty with
      | true =>
          have h0 : cids.filter (fun c => db1.categories.any (fun cat => cat.id == c)) = [] :=
            List.isEmpty_iff.mp hce2
          simp [create_categories_stage, hce, hce2, add_categories, h0]
      | false =>
          simp only [create_categories_stage, hce, hce2, Bool.not_false, if_true]
          simp only [add_categories]
          rw [filter_self_idem]

/-- Helper: the category echo of `create` gives the same aggregate data on
the raw payload ids and on the pre-restricted ids — each missing id already
produces no entry. -/
theorem create_categories_data_clean (db1 : Db) (cats : List CategoryRow)
    (hc : db1.categories = cats) (cids : List Nat) :
    create_categories_data db1 cids =
      create_categories_data db1
        (cids.filter (fun c => cats.any (fun cat => cat.id == c))) := by
  subst hc
  have hp : ∀ c, (db1.categories.any (fun cat => cat.id == c)) =
      ((db1.categories.find? (fun cat => cat.id == c)).map
        (fun cat => (⟨cat.id, cat.name, cat.slug, cat.parent_id⟩ : CategoryInfo))).isSome := by
    intro c
    rw [any_id_eq_find?_isSome]
    cases db1.categories.find? (fun cat => cat.id == c) <;> rfl
  have hrestrict := filterMap_restrict cids
    (fun cid => (db1.categories.find? (fun cat => cat.id == cid)).map
      (fun cat => (⟨cat.id, cat.name, cat.slug, cat.parent_id⟩ : CategoryInfo)))
    (fun c => db1.categories.any (fun cat => cat.id == c)) hp
  cases hce : cids.isEmpty with
  | true =>
      have h0 : cids = [] := List.isEmpty_iff.mp hce
      subst h0
      rfl
  | false =>
      cases hce2 : (cids.filter (fun c => db1.categories.any (fun cat => cat.id == c))).isEmpty with
      | true =>
          have h0 : cids.filter (fun c => db1.categories.any (fun cat => cat.id == c)) = [] :=
            List.isEmpty_iff.mp hce2
          simp only [create_categories_data, hce, hce2, Bool.not_false, Bool.not_true,
                     if_true, if_false]
          rw [← hrestrict, h0]
          rfl
      | false =>
          simp only [create_categories_data, hce, hce2, Bool.not_false, if_true]
          exact hrestrict.symm

/-- Helper: the association rows produced by the categories stage. -/
theorem create_categories_stage_pc (db1 : Db) (cats : List CategoryRow)
    (hc : db1.categories = cats) (newId : Nat) (cids : List Nat) :
    (create_categories_stage db1 newId cids).product_categories =
      db1.product_categories ++
        (cids.filter (fun c => cats.any (fun cat => cat.id == c))).map
          (fun c => (newId, c)) := by
  subst hc
  cases hce : cids.isEmpty with
  | true =>
      have h0 : cids = [] := List.isEmpty_iff.mp hce
      subst h0
      simp [create_categories_stage]
  | false =>
      simp [create_categories_stage, hce, add_categories]

/-- Helper: the images stage never touches the association table. -/
theorem create_images_stage_pc (db2 : Db) (newId : Nat) (imgs : List ImageDict) :
    (create_images_stage db2 newId imgs).product_categories = db2.product_categories := by
  simp only [create_images_stage, add_images]
  split <;> rfl

/-- Helper: every category echoed into the created aggregate exists. -/
theorem create_categories_data_all_existing (db1 : Db) (cats : List CategoryRow)
    (hc : db1.categories = cats) (cids : List Nat) :
    (create_categories_data db1 cids).all
      (fun ci => cats.any (fun cat => cat.id == ci.id)) = true := by
  subst hc
  simp only [create_categories_data]
  split
  · simp only [List.all_eq_true]
    intro ci hci
    obtain ⟨cid, _, hmap⟩ := List.mem_filterMap.mp hci
    cases hfind : db1.categories.find? (fun cat => cat.id == cid) with
    | none => rw [hfind] at hmap; cases hmap
    | some cat =>
        rw [hfind] at hmap
        injection hmap with hmap2
        subst hmap2
        have hmem := List.mem_of_find?_eq_some hfind
        exact List.any_eq_true.mpr ⟨cat, hmem, by simp⟩
  · rfl

/-- C9: dangling category ids in a creation payload have no effect at all:
the create behaves identically (same success or failure, same aggregate,
same resulting store) to the same payload with the dangling ids removed,
the association rows it writes are exactly the existing payload ids, and
every category in the returned aggregate exists. -/
theorem create_drops_dangling_category_ids (db : Db) (newId : Nat) (now : Int)
    (dto : ProductCreateDTO) :
    create_product db newId now dto =
      create_product db newId now
        { dto with category_ids :=
            dto.category_ids.filter (fun c => db.categories.any (fun cat => cat.id == c)) } ∧
    (∀ agg db2, create_product db newId now dto = .ok (agg, db2) →
      db2.product_categories = db.product_categories ++
        (dto.category_ids.filter (fun c => db.categories.any (fun cat => cat.id == c))).map
          (fun c => (newId, c)) ∧
      agg.categories.all (fun ci => db.categories.any (fun cat => cat.id == ci.id)) = true) := by
  constructor
  · simp only [create_product]
    rw [create_categories_stage_clean
          { db with products := db.products ++ [create_row newId now dto] }
          db.categories rfl newId dto.category_ids,
        create_categories_data_clean
          { db with products := db.products ++ [create_row newId now dto] }
          db.categories rfl dto.category_ids]
    rfl
  · intro agg db2 h
    simp only [create_product] at h
    cases hE : create_images_echo dto.images with
    | error e => rw [hE] at h; simp at h
    | ok images_data =>
        simp only [hE, Except.ok.injEq, Prod.mk.injEq] at h
        obtain ⟨hagg, hdb2⟩ := h
        constructor
        · rw [← hdb2, create_images_stage_pc,
              create_categories_stage_pc
                { db with products := db.products ++ [create_row newId now dto] }
                db.categories rfl newId dto.category_ids]
        · rw [← hagg]
          exact create_categories_data_all_existing
            { db with products := db.products ++ [create_row newId now dto] }
            db.categories rfl dto.category_ids

/-- C9 witness: on the concrete store, a payload naming existing category 5
and dangling category 777 creates exactly the same result as the payload
restricted to category 5 alone. -/
theorem create_drops_dangling_category_ids_witness :
    create_product exDb 3 0 exCreateDtoDangling =
      create_product exDb 3 0
        { exCreateDtoDangling with category_ids :=
            (exCreateDtoDangling.category_ids.filter
              (fun c => exDb.categories.any (fun cat => cat.id == c))) } :=
  (create_drops_dangling_category_ids exDb 3 0 exCreateDtoDangling).1

end Catalog
